import Mathlib

/-!
Shallow embedding of `src/other/upkgrust/upkgrust.rs`.

The Rust program reads the process argument list (element 0 is the program
name).  If the total count is below 2 it prints a usage line and returns;
otherwise it iterates over the arguments, skipping element 0, and prints one
line per argument chosen by exact string comparison.  We embed the program as
a pure function from the argument list to a process result: the list of lines
written to standard output, the list of lines written to standard error, and
the exit code.
-/

namespace Upkgrust

/-- The usage line printed when fewer than two arguments (program name
included) are present.  From line 5 of the source. -/
def usageLine : String := "Usage: Please provide at least one argument."

/-- The version line, printed for `-v` and `--version`.  From line 11. -/
def versionLine : String := "upkgrust (ulinux) 1.0"

/-- The help line, printed for `-h` and `--help`.  From line 13. -/
def helpLine : String := "usage option and help message..."

/-- The line printed for an unrecognized argument.  From line 15:
`println!("Unknown option: {}", arg)`. -/
def unknownLine (arg : String) : String := "Unknown option: " ++ arg

/-- The body of the `for` loop (lines 10-16): exact string comparison
choosing one output line for a single argument. -/
def classify (arg : String) : String :=
  if arg = "-v" ∨ arg = "--version" then versionLine
  else if arg = "-h" ∨ arg = "--help" then helpLine
  else unknownLine arg

/-- The argument is matched by the version branch (line 10). -/
def isVersionArg (arg : String) : Prop := arg = "-v" ∨ arg = "--version"

/-- The argument is matched by the help branch (line 12). -/
def isHelpArg (arg : String) : Prop := arg = "-h" ∨ arg = "--help"

instance (arg : String) : Decidable (isVersionArg arg) :=
  inferInstanceAs (Decidable (arg = "-v" ∨ arg = "--version"))

instance (arg : String) : Decidable (isHelpArg arg) :=
  inferInstanceAs (Decidable (arg = "-h" ∨ arg = "--help"))

/-- Result of one process run: lines on standard output, lines on standard
error, and the exit code. -/
structure ProcResult where
  stdout : List String
  stderr : List String
  exitCode : Nat
deriving Repr, DecidableEq

/-- The whole `main` function of `upkgrust.rs`.  `args` is the full argument
list, element 0 being the program name, exactly as `env::args()` yields it.
If `args.length < 2` the program prints the usage line and returns (exit 0);
otherwise it prints `classify arg` for every argument after the first, in
order.  The program never writes to standard error and always exits 0. -/
def main (args : List String) : ProcResult :=
  if args.length < 2 then
    { stdout := [usageLine], stderr := [], exitCode := 0 }
  else
    { stdout := (args.drop 1).map classify, stderr := [], exitCode := 0 }

/-- The trailing arguments: everything after the program name. -/
def trailing (args : List String) : List String := args.drop 1

/-- `classify` rewritten through the named branch predicates; definitional. -/
theorem classify_eq (arg : String) :
    classify arg =
      if isVersionArg arg then versionLine
      else if isHelpArg arg then helpLine
      else unknownLine arg := rfl

/-- With at least two arguments, `main` takes the loop branch. -/
theorem main_stdout_of_two_le (args : List String) (h : 2 ≤ args.length) :
    (main args).stdout = (trailing args).map classify := by
  have h2 : ¬ args.length < 2 := Nat.not_lt.mpr h
  simp [main, trailing, h2]

end Upkgrust

/-- C1: whenever the total argument count (program name included) is below 2,
the run writes exactly the usage line to standard output, nothing to standard
error, and exits successfully, with no per-argument processing. -/
theorem c1_usage_on_short_args (args : List String) (h : args.length < 2) :
    Upkgrust.main args =
      { stdout := [Upkgrust.usageLine], stderr := [], exitCode := 0 } := by
  simp [Upkgrust.main, h]

/-- Witness for C1 at the empty argument list. -/
theorem c1_usage_on_short_args_witness :
    ([] : List String).length < 2 ∧
      Upkgrust.main [] =
        { stdout := [Upkgrust.usageLine], stderr := [], exitCode := 0 } :=
  ⟨by decide, c1_usage_on_short_args [] (by decide)⟩

/-- C2: with N ≥ 1 trailing arguments, standard output has exactly one line
per trailing argument, and the line at index i is the classification of the
trailing argument at index i (same order; the program name yields no line). -/
theorem c2_line_per_trailing_arg (args : List String) (h : 2 ≤ args.length)
    (i : Nat) (hi : i < (Upkgrust.trailing args).length) :
    (Upkgrust.main args).stdout.length = (Upkgrust.trailing args).length ∧
      (Upkgrust.main args).stdout[i]? =
        some (Upkgrust.classify ((Upkgrust.trailing args).get ⟨i, hi⟩)) := by
  rw [Upkgrust.main_stdout_of_two_le args h]
  constructor
  · exact List.length_map _ _
  · rw [List.getElem?_map, List.getElem?_eq_getElem hi]
    simp

/-- Witness for C2 on `["prog", "-v", "--bar"]` at index 1. -/
theorem c2_line_per_trailing_arg_witness :
    2 ≤ (["prog", "-v", "--bar"] : List String).length ∧
      1 < (Upkgrust.trailing ["prog", "-v", "--bar"]).length ∧
      ((Upkgrust.main ["prog", "-v", "--bar"]).stdout.length =
          (Upkgrust.trailing ["prog", "-v", "--bar"]).length ∧
        (Upkgrust.main ["prog", "-v", "--bar"]).stdout[1]? =
          some (Upkgrust.classify
            ((Upkgrust.trailing ["prog", "-v", "--bar"]).get ⟨1, by decide⟩))) :=
  ⟨by decide, by decide,
    c2_line_per_trailing_arg ["prog", "-v", "--bar"] (by decide) 1 (by decide)⟩

/-- C3: an argument equal to `-v` or `--version` is classified to the exact
line `upkgrust (ulinux) 1.0`. -/
theorem c3_version_line (arg : String)
    (h : arg = "-v" ∨ arg = "--version") :
    Upkgrust.classify arg = "upkgrust (ulinux) 1.0" := by
  rcases h with rfl | rfl <;> rfl

/-- Witness for C3 at `-v`. -/
theorem c3_version_line_witness :
    (("-v" : String) = "-v" ∨ ("-v" : String) = "--version") ∧
      Upkgrust.classify "-v" = "upkgrust (ulinux) 1.0" :=
  ⟨Or.inl rfl, c3_version_line "-v" (Or.inl rfl)⟩

/-- C4: an argument equal to `-h` or `--help` (such an argument is never
`-v` or `--version`) is classified to the exact line
`usage option and help message...`. -/
theorem c4_help_line (arg : String)
    (h : arg = "-h" ∨ arg = "--help") :
    ¬ Upkgrust.isVersionArg arg ∧
      Upkgrust.classify arg = "usage option and help message..." := by
  rcases h with rfl | rfl <;> exact ⟨by decide, rfl⟩

/-- Witness for C4 at `--help`. -/
theorem c4_help_line_witness :
    (("--help" : String) = "-h" ∨ ("--help" : String) = "--help") ∧
      (¬ Upkgrust.isVersionArg "--help" ∧
        Upkgrust.classify "--help" = "usage option and help message...") :=
  ⟨Or.inr rfl, c4_help_line "--help" (Or.inr rfl)⟩

/-- C5: an argument equal to none of the four literals (exact, case
sensitive comparison) is classified to `Unknown option: ` followed by the
argument text verbatim. -/
theorem c5_unknown_line (arg : String)
    (h1 : arg ≠ "-v") (h2 : arg ≠ "--version")
    (h3 : arg ≠ "-h") (h4 : arg ≠ "--help") :
    Upkgrust.classify arg = "Unknown option: " ++ arg := by
  simp [Upkgrust.classify, Upkgrust.unknownLine, h1, h2, h3, h4]

/-- Witness for C5 at `-V`: case mismatch yields `Unknown option: -V`. -/
theorem c5_unknown_line_witness :
    (("-V" : String) ≠ "-v" ∧ ("-V" : String) ≠ "--version" ∧
        ("-V" : String) ≠ "-h" ∧ ("-V" : String) ≠ "--help") ∧
      Upkgrust.classify "-V" = "Unknown option: -V" :=
  ⟨by decide,
    c5_unknown_line "-V" (by decide) (by decide) (by decide) (by decide)⟩

/-- C6: no argument terminates the loop early: with at least one trailing
argument, the number of output lines equals the number of trailing
arguments, and even the last trailing argument still produces its line. -/
theorem c6_no_early_termination (args : List String) (h : 2 ≤ args.length) :
    (Upkgrust.main args).stdout.length = (Upkgrust.trailing args).length ∧
      (Upkgrust.main args).stdout.getLast? =
        ((Upkgrust.trailing args).getLast?).map Upkgrust.classify := by
  rw [Upkgrust.main_stdout_of_two_le args h]
  exact ⟨List.length_map _ _, List.getLast?_map _ _⟩

/-- Witness for C6: unrecognized `--bogus` does not stop processing of the
later `-h`. -/
theorem c6_no_early_termination_witness :
    2 ≤ (["p", "--bogus", "-h"] : List String).length ∧
      ((Upkgrust.main ["p", "--bogus", "-h"]).stdout.length =
          (Upkgrust.trailing ["p", "--bogus", "-h"]).length ∧
        (Upkgrust.main ["p", "--bogus", "-h"]).stdout.getLast? =
          ((Upkgrust.trailing ["p", "--bogus", "-h"]).getLast?).map
            Upkgrust.classify) :=
  ⟨by decide, c6_no_early_termination ["p", "--bogus", "-h"] (by decide)⟩

/-- C7: for every argument exactly one of the three branches applies, and
the classification is the single line of that branch: the version line, the
help line, or the unknown-option line, depending only on the argument. -/
theorem c7_exactly_one_outcome (arg : String) :
    (Upkgrust.isVersionArg arg ∧ ¬ Upkgrust.isHelpArg arg ∧
        Upkgrust.classify arg = Upkgrust.versionLine) ∨
      (¬ Upkgrust.isVersionArg arg ∧ Upkgrust.isHelpArg arg ∧
        Upkgrust.classify arg = Upkgrust.helpLine) ∨
      (¬ Upkgrust.isVersionArg arg ∧ ¬ Upkgrust.isHelpArg arg ∧
        Upkgrust.classify arg = Upkgrust.unknownLine arg) := by
  by_cases hv : Upkgrust.isVersionArg arg
  · refine Or.inl ⟨hv, ?_, ?_⟩
    · rcases hv with rfl | rfl <;> rintro (h | h) <;> simp_all
    · rcases hv with rfl | rfl <;> rfl
  · by_cases hh : Upkgrust.isHelpArg arg
    · refine Or.inr (Or.inl ⟨hv, hh, ?_⟩)
      rcases hh with rfl | rfl <;> rfl
    · refine Or.inr (Or.inr ⟨hv, hh, ?_⟩)
      rw [Upkgrust.classify_eq, if_neg hv, if_neg hh]

/-- C8: for every argument list whatsoever, the run writes nothing to
standard error and the exit code is 0 (success); standard output is its only
output channel. -/
theorem c8_always_success (args : List String) :
    (Upkgrust.main args).stderr = [] ∧ (Upkgrust.main args).exitCode = 0 := by
  unfold Upkgrust.main
  split <;> exact ⟨rfl, rfl⟩

/-- C9: a completely empty argument list (not even a program name) still
produces exactly the usage line with a successful exit, as does a
one-element list; skipping the first element of an empty or one-element
list is total and yields the empty list. -/
theorem c9_empty_args_total :
    Upkgrust.main [] =
        { stdout := [Upkgrust.usageLine], stderr := [], exitCode := 0 } ∧
      (∀ a : String, Upkgrust.main [a] =
        { stdout := [Upkgrust.usageLine], stderr := [], exitCode := 0 }) ∧
      Upkgrust.trailing [] = [] ∧
      (∀ a : String, Upkgrust.trailing [a] = []) :=
  ⟨rfl, fun _ => rfl, rfl, fun _ => rfl⟩

/-- C10: with at least one trailing argument, the whole standard output is
the in-order concatenation of a fixed per-argument function applied to each
trailing argument: a list homomorphism, so each line depends only on that
argument's value. -/
theorem c10_output_is_map (args : List String) (h : 2 ≤ args.length) :
    (Upkgrust.main args).stdout =
      (Upkgrust.trailing args).map Upkgrust.classify :=
  Upkgrust.main_stdout_of_two_le args h

/-- Witness for C10 on `["p", "-v", "zzz"]`. -/
theorem c10_output_is_map_witness :
    2 ≤ (["p", "-v", "zzz"] : List String).length ∧
      (Upkgrust.main ["p", "-v", "zzz"]).stdout =
        (Upkgrust.trailing ["p", "-v", "zzz"]).map Upkgrust.classify :=
  ⟨by decide, c10_output_is_map ["p", "-v", "zzz"] (by decide)⟩
